import Mathlib

set_option maxHeartbeats 1000000
set_option maxRecDepth 4000

/-!
Shallow embedding of the bot-simulation engine of `streamlit_app`
(`helpers/bot_utils.py`, plus the popularity snapshot and the page-level
error boundary of `pages/Analysis.py`).

Modelling conventions:
* Appwrite documents become explicit records; `$id` values live in `DocId`
  (`named` for ids already in the database, `gen n` for ids produced by
  `generate_id()`, which the SDK guarantees to be fresh).
* The store (Appwrite database) is a record of four lists; `list_documents`
  with the queries used by the code becomes a filter over the matching list.
* Every `list_documents` / `create_document` / `update_document` call consults
  a failure oracle `Env.storeFail`, indexed by a running call counter: `some
  msg` means that call raises (a transient store error); the exception is
  modelled by the `err` field of `RunResult`.  Python mutates the caller's
  `logs` list in place, so the state reached before the exception is kept.
* `random.choice` draws from an injected stream `Env.rand`, one index per
  draw (`choice l = l[rand k % len l]`).
* The OpenAI helpers return `none` on any failure or missing key (they catch
  their own exceptions); a falsy result (`None`, `{}`, empty url) is
  collapsed to `none`, and a generated comment dict without a `comment` key
  is collapsed to `some ""` (both take the same branch in the code).
* `upload_image_from_url` can raise; its exception text is injected via
  `Env.upload`.
* Python `int(x)` on a string is modelled as parsing an optionally
  whitespace-padded decimal literal (`trim` + `toInt?`); a non-numeric
  string raises `ValueError`, a `None` value raises `TypeError`.
-/

namespace BotSim

/-- Appwrite document ids: ids already present in the database (`named`) and
fresh ids handed out by `generate_id()` (`gen`, numbered by a counter). -/
inductive DocId where
  | named (s : String)
  | gen (n : Nat)
deriving DecidableEq

/-- Rendering of an id inside an f-string log message. -/
def DocId.render : DocId → String
  | .named s => s
  | .gen n => "unique" ++ toString n

/-- A row of the users table (only the fields the engine reads). -/
structure User where
  id : DocId
  email : String
  popularityscore : Int
deriving DecidableEq

/-- A raw `activitylevel` attribute value: an integer, a string, or an
explicit null (a missing attribute is `Option.none` at the `Bot` level). -/
inductive AVal where
  | intv (n : Int)
  | strv (s : String)
  | nullv
deriving DecidableEq

/-- A row of the bots table. -/
structure Bot where
  id : DocId
  bottype : Option String
  activitylevel : Option AVal
  tone : Option String
deriving DecidableEq

/-- A row of the posts table. -/
structure Post where
  id : DocId
  title : String
  content : String
  imageurl : Option String
  likes : Nat
  userid : DocId
deriving DecidableEq

/-- A row of the comments table. -/
structure Comment where
  id : DocId
  content : String
  postid : DocId
  userid : DocId
  likes : Nat
deriving DecidableEq

/-- The Appwrite database contents. -/
structure Store where
  users : List User
  bots : List Bot
  posts : List Post
  comments : List Comment
deriving DecidableEq

/-- Result of `generate_post_using_chatgpt` (missing dict keys folded to ""). -/
structure GenPost where
  title : String
  content : String
deriving DecidableEq

/-- The external collaborators: randomness, the OpenAI helpers, the image
upload, and the transient-store-failure oracle (indexed by the store-call
counter; `some msg` means that call raises with message `msg`). -/
structure Env where
  rand : Nat → Nat
  genPost : String → Option String → Option GenPost
  genComment : String → Option String → Option String
  imageGen : String → Option String
  upload : String → Except String String
  storeFail : Nat → Option String

/-- The mutable state of one cycle: the database, the caller's `logs` list,
and counters for random draws, store calls and generated ids. -/
structure SimState where
  store : Store
  logs : List String
  randCtr : Nat
  callCtr : Nat
  idCtr : Nat
deriving DecidableEq

/-- Outcome of a piece of the cycle: the state reached, and `some msg` when
an uncaught exception escaped (Python keeps the in-place log mutations). -/
structure RunResult where
  st : SimState
  err : Option String
deriving DecidableEq

/-- `logs.append(m)`. -/
def addLog (st : SimState) (m : String) : SimState :=
  { st with logs := st.logs ++ [m] }

/-- A store call: consult the failure oracle, then advance the call counter. -/
def tick (env : Env) (st : SimState) : RunResult :=
  match env.storeFail st.callCtr with
  | some msg => ⟨st, some msg⟩
  | none => ⟨{ st with callCtr := st.callCtr + 1 }, none⟩

/-- Sequencing: an escaped exception aborts everything after it. -/
def andThen (r : RunResult) (f : SimState → RunResult) : RunResult :=
  match r.err with
  | some _ => r
  | none => f r.st

/-- Append a log entry and return normally (the early-return skips). -/
def skipLog (st : SimState) (m : String) : RunResult :=
  ⟨addLog st m, none⟩

/-- Advance the random-draw counter after one `random.choice`. -/
def nextRand (st : SimState) : SimState :=
  { st with randCtr := st.randCtr + 1 }

/-- `random.choice l` with the current draw of the injected stream. -/
def pickFrom (env : Env) (st : SimState) (l : List α) (d : α) : α :=
  l.getD (env.rand st.randCtr % l.length) d

def postDefault : Post :=
  ⟨.named "", "", "", none, 0, .named ""⟩

/-- `find_important_people` (bot_utils.py 34-37), the pure part: users with
`popularityscore = 1`, mapped to their `$id`. -/
def importantPeopleOf (s : Store) : List DocId :=
  (s.users.filter (fun u => u.popularityscore = 1)).map User.id

/-- `get_user_posts` (bot_utils.py 40-42), the pure part. -/
def getUserPosts (s : Store) (uid : DocId) : List Post :=
  s.posts.filter (fun p => p.userid = uid)

/-- `get_comments_for_post` (bot_utils.py 88-90), the pure part. -/
def getCommentsForPost (s : Store) (pid : DocId) : List Comment :=
  s.comments.filter (fun c => c.postid = pid)

/-- Content truncation of `create_post` (bot_utils.py 51-52). -/
def truncate500 (s : String) : String :=
  if s.length > 500 then ⟨s.data.take 500⟩ else s

/-- `create_post` (bot_utils.py 45-61): truncate the content, then one
`create_document` call appending a post with likes 0 and a fresh id. -/
def createPost (env : Env) (title content : String) (imageurl : Option String)
    (uid : DocId) (st : SimState) : RunResult :=
  let content := truncate500 content
  andThen (tick env st) fun st1 =>
    ⟨{ st1 with
        store := { st1.store with
          posts := st1.store.posts ++ [⟨.gen st1.idCtr, title, content, imageurl, 0, uid⟩] },
        idCtr := st1.idCtr + 1 }, none⟩

/-- `create_comment` (bot_utils.py 64-75). -/
def createComment (env : Env) (content : String) (pid uid : DocId)
    (st : SimState) : RunResult :=
  andThen (tick env st) fun st1 =>
    ⟨{ st1 with
        store := { st1.store with
          comments := st1.store.comments ++ [⟨.gen st1.idCtr, content, pid, uid, 0⟩] },
        idCtr := st1.idCtr + 1 }, none⟩

/-- `add_like_to_post` (bot_utils.py 78-80): one `update_document` writing
`current_likes + 1` to the post with the given id. -/
def addLikeToPost (env : Env) (pid : DocId) (currentLikes : Nat)
    (st : SimState) : RunResult :=
  andThen (tick env st) fun st1 =>
    ⟨{ st1 with
        store := { st1.store with
          posts := st1.store.posts.map fun p =>
            if p.id = pid then { p with likes := currentLikes + 1 } else p } }, none⟩

/-- `add_like_to_comment` (bot_utils.py 83-85). -/
def addLikeToComment (env : Env) (cid : DocId) (currentLikes : Nat)
    (st : SimState) : RunResult :=
  andThen (tick env st) fun st1 =>
    ⟨{ st1 with
        store := { st1.store with
          comments := st1.store.comments.map fun c =>
            if c.id = cid then { c with likes := currentLikes + 1 } else c } }, none⟩

/-- Seed text of `run_post_bot` (bot_utils.py 110). -/
def postSeed (p : Post) : String :=
  "title: " ++ p.title ++ ", content: " ++ p.content

/-- Seed text of `run_comment_bot` (bot_utils.py 144). -/
def commentSeed (p : Post) : String :=
  "content: " ++ p.content

/-- `run_post_bot` (bot_utils.py 93-129). -/
def runPostBot (env : Env) (bot : Bot) (imp : List DocId) (st : SimState) : RunResult :=
  if imp = [] then
    skipLog st ("Bot " ++ bot.id.render ++ " could not find any important people to post about.")
  else
    let target := pickFrom env st imp (DocId.named "")
    let st1 := nextRand st
    andThen (tick env st1) fun st2 =>
      let posts := getUserPosts st2.store target
      if posts = [] then
        skipLog st2 ("Bot " ++ bot.id.render ++ " found no posts by important user " ++ target.render ++ ".")
      else
        let post := pickFrom env st2 posts postDefault
        let st3 := nextRand st2
        match env.genPost (postSeed post) bot.tone with
        | none =>
          skipLog st3 ("Bot " ++ bot.id.render ++ " could not generate a post via ChatGPT.")
        | some g =>
          let res :=
            if g.content = "" then (none, st3)
            else
              match env.imageGen g.content with
              | none => (none, st3)
              | some url =>
                match env.upload url with
                | .ok fid => (some fid, st3)
                | .error exc =>
                  (none, addLog st3 ("Bot " ++ bot.id.render ++ " failed to upload image: " ++ exc))
          andThen (createPost env g.title g.content res.1 bot.id res.2) fun st4 =>
            ⟨addLog st4 ("Bot " ++ bot.id.render ++ " posted a new message titled \x27" ++ g.title ++ "\x27."), none⟩

/-- `run_comment_bot` (bot_utils.py 132-149). -/
def runCommentBot (env : Env) (bot : Bot) (imp : List DocId) (st : SimState) : RunResult :=
  if imp = [] then
    skipLog st ("Bot " ++ bot.id.render ++ " could not find any important people to comment on.")
  else
    let target := pickFrom env st imp (DocId.named "")
    let st1 := nextRand st
    andThen (tick env st1) fun st2 =>
      let posts := getUserPosts st2.store target
      if posts = [] then
        skipLog st2 ("Bot " ++ bot.id.render ++ " found no posts by important user " ++ target.render ++ " to comment on.")
      else
        let post := pickFrom env st2 posts postDefault
        let st3 := nextRand st2
        match env.genComment (commentSeed post) bot.tone with
        | none =>
          skipLog st3 ("Bot " ++ bot.id.render ++ " could not generate a comment via ChatGPT.")
        | some c =>
          if c = "" then
            skipLog st3 ("Bot " ++ bot.id.render ++ " could not generate a comment via ChatGPT.")
          else
            andThen (createComment env c post.id bot.id st3) fun st4 =>
              ⟨addLog st4 ("Bot " ++ bot.id.render ++ " commented on post " ++ post.id.render ++ "."), none⟩

/-- The comment loop of `run_reaction_bot` (bot_utils.py 173-179). -/
def likeBotComments (env : Env) (bid : DocId) (botIds imp : List DocId) :
    List Comment → SimState → RunResult
  | [], st => ⟨st, none⟩
  | c :: rest, st =>
    if c.userid ∈ botIds ∨ c.userid ∈ imp then
      andThen (addLikeToComment env c.id c.likes st) fun st1 =>
        likeBotComments env bid botIds imp rest
          (addLog st1 ("Bot " ++ bid.render ++ " liked comment " ++ c.id.render ++ " by user " ++ c.userid.render ++ "."))
    else
      likeBotComments env bid botIds imp rest st

/-- `run_reaction_bot` (bot_utils.py 152-179). -/
def runReactionBot (env : Env) (bot : Bot) (imp botIds : List DocId) (st : SimState) : RunResult :=
  if imp = [] then
    skipLog st ("Bot " ++ bot.id.render ++ " could not find any important people to react to.")
  else
    let target := pickFrom env st imp (DocId.named "")
    let st1 := nextRand st
    andThen (tick env st1) fun st2 =>
      let posts := getUserPosts st2.store target
      if posts = [] then
        skipLog st2 ("Bot " ++ bot.id.render ++ " found no posts by important user " ++ target.render ++ " to react to.")
      else
        let post := pickFrom env st2 posts postDefault
        let st3 := nextRand st2
        andThen (addLikeToPost env post.id post.likes st3) fun st4 =>
          let st5 := addLog st4 ("Bot " ++ bot.id.render ++ " liked post " ++ post.id.render ++ ".")
          andThen (tick env st5) fun st6 =>
            likeBotComments env bot.id botIds imp (getCommentsForPost st6.store post.id) st6

/-- Python `int(...)` applied to the raw `activitylevel` followed by
`range(...)`: missing and null and non-numeric values give 0 iterations
(the `TypeError`/`ValueError` branch of bot_utils.py 201-204), a negative
integer gives an empty `range`. -/
def activityCount : Option AVal → Nat
  | none => 0
  | some (.intv n) => n.toNat
  | some (.strv s) =>
    match s.trim.toInt? with
    | some n => n.toNat
    | none => 0
  | some .nullv => 0

/-- Rendering of an `Option` value inside an f-string (`None` when absent). -/
def optStr : Option String → String
  | none => "None"
  | some s => s

/-- The inner `for _ in range(activity_count)` loop of `run_bots_once`
(bot_utils.py 205-213), dispatching on `bottype`. -/
def runBotIters (env : Env) (bot : Bot) (imp botIds : List DocId) :
    Nat → SimState → RunResult
  | 0, st => ⟨st, none⟩
  | n + 1, st =>
    let r :=
      if bot.bottype = some "post" then runPostBot env bot imp st
      else if bot.bottype = some "comment" then runCommentBot env bot imp st
      else if bot.bottype = some "reaction" then runReactionBot env bot imp botIds st
      else skipLog st ("Bot " ++ bot.id.render ++ " has unknown type \x27" ++ optStr bot.bottype ++ "\x27.")
    andThen r (runBotIters env bot imp botIds n)

/-- Processing of one bot inside `run_bots_once` (bot_utils.py 197-213). -/
def processBot (env : Env) (imp botIds : List DocId) (bot : Bot)
    (st : SimState) : RunResult :=
  runBotIters env bot imp botIds (activityCount bot.activitylevel) st

/-- The outer `for bot in bot_docs` loop of `run_bots_once`. -/
def runBotsList (env : Env) (imp botIds : List DocId) :
    List Bot → SimState → RunResult
  | [], st => ⟨st, none⟩
  | b :: bs, st => andThen (processBot env imp botIds b st) (runBotsList env imp botIds bs)

/-- `run_bots_once` (bot_utils.py 182-213): list the bots (one store call),
bail out if none, resolve the important people (one store call), then run
every bot `activityCount` times. -/
def runBotsOnce (env : Env) (st : SimState) : RunResult :=
  andThen (tick env st) fun st1 =>
    let bots := st1.store.bots
    if bots = [] then ⟨addLog st1 "No bots found in the database.", none⟩
    else
      andThen (tick env st1) fun st2 =>
        let imp := importantPeopleOf st2.store
        let botIds := bots.map Bot.id
        runBotsList env imp botIds bots st2

/-- Outcome of the `Run bots` branch of `run_analysis_page`. -/
inductive PageOutcome where
  | success
  | errorShown (msg : String)
deriving DecidableEq

/-- The error boundary of `run_analysis_page` (Analysis.py 85-90): the whole
cycle is wrapped in a single try/except that surfaces the exception as an
error display.  (The page calls `run_bots_once_callback`, whose body is not
in the sources; modelled from the spec entry point `runCycle` as the same
cycle as `run_bots_once`.) -/
def runAnalysisCycle (env : Env) (st : SimState) : PageOutcome :=
  match (runBotsOnce env st).err with
  | none => .success
  | some e => .errorShown ("Error running bots: " ++ e)

/-- The target user `random.choice(important_people)` of one bot iteration
started in state `st`. -/
def chosenTarget (env : Env) (imp : List DocId) (st : SimState) : DocId :=
  pickFrom env st imp (DocId.named "")

/-- The post `random.choice(posts)` of one bot iteration started in state
`st` (the second random draw). -/
def chosenPost (env : Env) (imp : List DocId) (st : SimState) : Post :=
  pickFrom env (nextRand st) (getUserPosts st.store (chosenTarget env imp st)) postDefault

/-- Python dict read `d.get(k, v)` for the popularity totals. -/
def dictGetD : List (DocId × Nat) → DocId → Nat → Nat
  | [], _, v => v
  | e :: d, k, v => if e.1 = k then e.2 else dictGetD d k v

/-- `totals[uid] = totals.get(uid, 0) + likes` (Analysis.py 46 and 54):
replace the binding in place when present, append it at the end otherwise
(Python dicts keep insertion order and hold each key once). -/
def addLikesEntry : List (DocId × Nat) → DocId → Nat → List (DocId × Nat)
  | [], uid, likes => [(uid, likes)]
  | e :: d, uid, likes =>
    if e.1 = uid then (e.1, e.2 + likes) :: d else e :: addLikesEntry d uid likes

/-- One loop body of `compute_popularity_snapshot`: skip falsy author ids
(`if not uid: continue`), otherwise accumulate the likes. -/
def snapStep (d : List (DocId × Nat)) (uid : DocId) (likes : Nat) :
    List (DocId × Nat) :=
  if uid = DocId.named "" then d else addLikesEntry d uid likes

/-- `compute_popularity_snapshot` (Analysis.py 37-55): list all posts and all
comments (two store calls) and sum likes per author id into a dict. -/
def computePopularitySnapshot (env : Env) (st : SimState) :
    List (DocId × Nat) × RunResult :=
  let r1 := tick env st
  match r1.err with
  | some _ => ([], r1)
  | none =>
    let st1 := r1.st
    let totals1 := st1.store.posts.foldl (fun d p => snapStep d p.userid p.likes) []
    let r2 := tick env st1
    match r2.err with
    | some _ => ([], r2)
    | none =>
      let st2 := r2.st
      let totals2 := st2.store.comments.foldl (fun d c => snapStep d c.userid c.likes) totals1
      (totals2, ⟨st2, none⟩)

/-- The specification-side aggregate: total likes of all posts and comments
authored by `uid`. -/
def sumLikes (s : Store) (uid : DocId) : Nat :=
  ((s.posts.filter (fun p => p.userid = uid)).map Post.likes).sum +
  ((s.comments.filter (fun c => c.userid = uid)).map Comment.likes).sum

/-- The raw `activitylevel` values that the dispatcher coerces to zero
iterations: a missing attribute, an explicit null (`TypeError`), a
non-numeric string (`ValueError`), or a negative integer (empty `range`). -/
def coercesToZero (a : Option AVal) : Prop :=
  a = none ∨ a = some .nullv ∨
    (∃ s, a = some (.strv s) ∧ s.trim.toInt? = none) ∨
    (∃ n, a = some (.intv n) ∧ n < 0)

/-- Upper bound forced on the id counter by one document id. -/
def idBound : DocId → Nat
  | .named _ => 0
  | .gen n => n + 1

/-- Well-formedness of a cycle state: document ids are pairwise distinct in
each table (Appwrite guarantees unique `$id`s) and every generated id was
produced by an earlier value of the id counter. -/
def Good (st : SimState) : Prop :=
  (st.store.posts.map Post.id).Nodup ∧
  (st.store.comments.map Comment.id).Nodup ∧
  (∀ i ∈ st.store.posts.map Post.id, idBound i ≤ st.idCtr) ∧
  (∀ i ∈ st.store.comments.map Comment.id, idBound i ≤ st.idCtr)

instance (st : SimState) : Decidable (Good st) := by
  unfold Good
  infer_instance

/-- Every post of `s1` survives in `s2` with the same identity and
non-likes fields, and with at least as many likes. -/
def PostsKept (s1 s2 : List Post) : Prop :=
  ∀ p ∈ s1, ∃ q ∈ s2, q.id = p.id ∧ q.title = p.title ∧ q.content = p.content ∧
    q.imageurl = p.imageurl ∧ q.userid = p.userid ∧ p.likes ≤ q.likes

/-- Every comment of `s1` survives in `s2` likewise. -/
def CommentsKept (s1 s2 : List Comment) : Prop :=
  ∀ c ∈ s1, ∃ d ∈ s2, d.id = c.id ∧ d.content = c.content ∧ d.postid = c.postid ∧
    d.userid = c.userid ∧ c.likes ≤ d.likes

/-- The monotonicity relation of one cycle: users and bots untouched, every
existing post and comment kept with non-decreasing likes. -/
def StoreLE (s1 s2 : Store) : Prop :=
  s2.users = s1.users ∧ s2.bots = s1.bots ∧
  PostsKept s1.posts s2.posts ∧ CommentsKept s1.comments s2.comments

/-- The stronger relation satisfied by non-reaction work: users and bots
untouched and the post and comment tables only extended at the end. -/
def StoreExact (s1 s2 : Store) : Prop :=
  s2.users = s1.users ∧ s2.bots = s1.bots ∧
  (∃ t, s2.posts = s1.posts ++ t) ∧ (∃ t, s2.comments = s1.comments ++ t)

/-- No bot of the cycle dispatches to `run_reaction_bot`. -/
def noReactionBots (bots : List Bot) : Prop :=
  ∀ b ∈ bots, b.bottype ≠ some "reaction"

/-! ### Concrete fixtures used by counterexamples and witnesses -/

/-- An environment whose store never fails and whose generators are off. -/
def envOk : Env :=
  { rand := fun _ => 0
    genPost := fun _ _ => none
    genComment := fun _ _ => none
    imageGen := fun _ => none
    upload := fun _ => .error "refused"
    storeFail := fun _ => none }

/-- An empty database in a fresh state. -/
def stEmpty : SimState := ⟨⟨[], [], [], []⟩, [], 0, 0, 0⟩

/-- Environment for the C1 counterexample: the fourth store call (the likes
update of the first reaction iteration) raises `"boom"`. -/
def envC1 : Env :=
  { envOk with storeFail := fun n => if n = 3 then some "boom" else none }

/-- Database for the C1 counterexample: one important user with one post and
one reaction bot with activity level 2. -/
def stC1 : SimState :=
  ⟨⟨[⟨.named "u", "u@example.org", 1⟩],
    [⟨.named "b", some "reaction", some (.intv 2), none⟩],
    [⟨.named "p", "t", "c", none, 0, .named "u"⟩], []⟩, [], 0, 0, 0⟩

/-- Environment for the C8 counterexample: post generation succeeds, image
generation fails (returns `None`), the store never fails. -/
def envC8 : Env :=
  { envOk with genPost := fun _ _ => some ⟨"T", "C"⟩ }

/-- One post bot and one important user with one post. -/
def botC8 : Bot := ⟨.named "b", some "post", some (.intv 1), none⟩

def stC8 : SimState :=
  ⟨⟨[⟨.named "u", "u@example.org", 1⟩], [botC8],
    [⟨.named "p", "t", "c", none, 0, .named "u"⟩], []⟩, [], 0, 0, 0⟩

/-- A 600-character content input for the truncation witness. -/
def longContent : String := ⟨List.replicate 600 'x'⟩

/-- Reaction-bot fixture matching Scenario C of the spec: selected post has
likes 5, one comment by a bot (likes 2), one by an ordinary user (likes 2). -/
def botW2 : Bot := ⟨.named "b", some "reaction", some (.intv 1), none⟩

def stW2 : SimState :=
  ⟨⟨[⟨.named "u", "u@example.org", 1⟩], [botW2],
    [⟨.named "p", "t", "c", none, 5, .named "u"⟩],
    [⟨.named "c1", "hi", .named "p", .named "b", 2⟩,
     ⟨.named "c2", "yo", .named "p", .named "o", 2⟩]⟩, [], 0, 0, 0⟩

/-- Post-bot fixture for the C4 witness: missing activity level. -/
def botW4 : Bot := ⟨.named "b4", some "post", none, none⟩

/-- Comment/post-bot fixture for the C6 and C8 witnesses. -/
def stW6 : SimState :=
  ⟨⟨[⟨.named "u", "u@example.org", 1⟩], [],
    [⟨.named "p", "t", "c", none, 0, .named "u"⟩], []⟩, [], 0, 0, 0⟩

/-- Environment for the C8 witness upload branch: image generation yields a
url and the upload raises. -/
def envC8up : Env :=
  { envC8 with imageGen := fun _ => some "http:u", upload := fun _ => .error "404" }

/-- The comments of the selected post, as listed by the reaction bot. -/
def reactionComments (env : Env) (imp : List DocId) (st : SimState) : List Comment :=
  st.store.comments.filter (fun c => c.postid = (chosenPost env imp st).id)

/-- The state of a reaction-bot iteration right after the post like and its
log entry, just before the comment loop (used to factor proofs). -/
def reactionMid (env : Env) (bot : Bot) (imp : List DocId) (st : SimState) : SimState :=
  { store := { users := st.store.users, bots := st.store.bots,
               posts := st.store.posts.map fun q =>
                 if q.id = (chosenPost env imp st).id
                 then { q with likes := (chosenPost env imp st).likes + 1 } else q,
               comments := st.store.comments },
    logs := st.logs ++ ["Bot " ++ bot.id.render ++ " liked post " ++ (chosenPost env imp st).id.render ++ "."],
    randCtr := st.randCtr + 2,
    callCtr := st.callCtr + 3,
    idCtr := st.idCtr }

/-! ## Theorems -/

/-- C10: with no bots stored, `run_bots_once` appends exactly the single log
entry "No bots found in the database." and returns after that one read: the
resulting state differs from the input only by that log entry and by one
store call (so the important-people resolver is never consulted and no
further read or write happens). -/
theorem runBotsOnce_no_bots (env : Env) (st : SimState)
    (hok : env.storeFail st.callCtr = none) (hb : st.store.bots = []) :
    runBotsOnce env st =
      ⟨{ st with logs := st.logs ++ ["No bots found in the database."],
                 callCtr := st.callCtr + 1 }, none⟩ := by
  simp [runBotsOnce, tick, hok, andThen, hb, addLog]

/-- Witness for C10 at the empty database. -/
theorem runBotsOnce_no_bots_witness :
    envOk.storeFail stEmpty.callCtr = none ∧ stEmpty.store.bots = [] ∧
    runBotsOnce envOk stEmpty =
      ⟨{ stEmpty with logs := stEmpty.logs ++ ["No bots found in the database."],
                      callCtr := stEmpty.callCtr + 1 }, none⟩ :=
  ⟨rfl, rfl, runBotsOnce_no_bots envOk stEmpty rfl rfl⟩

/-- C7: with an empty important-people set, each of the three bot actions
only appends its "could not find any important people ..." log entry and
returns: no store call and no write happens in any of them. -/
theorem empty_important_people_logs (env : Env) (bot : Bot) (botIds : List DocId)
    (st : SimState) :
    runPostBot env bot [] st =
      ⟨addLog st ("Bot " ++ bot.id.render ++ " could not find any important people to post about."), none⟩ ∧
    runCommentBot env bot [] st =
      ⟨addLog st ("Bot " ++ bot.id.render ++ " could not find any important people to comment on."), none⟩ ∧
    runReactionBot env bot [] botIds st =
      ⟨addLog st ("Bot " ++ bot.id.render ++ " could not find any important people to react to."), none⟩ :=
  ⟨rfl, rfl, rfl⟩

/-- C4: a missing, null, non-numeric or negative `activitylevel` is coerced
to zero iterations, and a bot with zero iterations contributes nothing to
the cycle: no action invocation, no store access, no log entry. -/
theorem activity_coercion_zero (env : Env) (imp botIds : List DocId) (bot : Bot)
    (st : SimState)
    (h : coercesToZero bot.activitylevel ∨ activityCount bot.activitylevel = 0) :
    activityCount bot.activitylevel = 0 ∧
    processBot env imp botIds bot st = ⟨st, none⟩ := by
  have hz : activityCount bot.activitylevel = 0 := by
    rcases h with h | h
    · rcases h with h | h | ⟨s, hs, hn⟩ | ⟨n, hn, hneg⟩
      · rw [h]; rfl
      · rw [h]; rfl
      · rw [hs]; simp [activityCount, hn]
      · rw [hn]; simp [activityCount]; omega
    · exact h
  refine ⟨hz, ?_⟩
  unfold processBot
  rw [hz]
  rfl

/-- Witness for C4: a post bot with a missing activity level. -/
theorem activity_coercion_zero_witness :
    (coercesToZero botW4.activitylevel ∨ activityCount botW4.activitylevel = 0) ∧
    activityCount botW4.activitylevel = 0 ∧
    processBot envOk [] [] botW4 stEmpty = ⟨stEmpty, none⟩ :=
  ⟨Or.inl (Or.inl rfl),
   activity_coercion_zero envOk [] [] botW4 stEmpty (Or.inl (Or.inl rfl))⟩

/-- C5: `create_post` stores, under a fresh id owned by the given author,
the given title, an image reference, likes 0, and the content truncated to
its first 500 characters when longer than 500 and unchanged otherwise. -/
theorem createPost_truncates (env : Env) (title content : String)
    (img : Option String) (uid : DocId) (st : SimState)
    (hok : env.storeFail st.callCtr = none) :
    (createPost env title content img uid st).err = none ∧
    (createPost env title content img uid st).st.store.posts =
      st.store.posts ++ [⟨.gen st.idCtr, title, truncate500 content, img, 0, uid⟩] ∧
    (content.length > 500 →
      (truncate500 content).length = 500 ∧
      (truncate500 content).data = content.data.take 500) ∧
    (content.length ≤ 500 → truncate500 content = content) := by
  refine ⟨?_, ?_, ?_, ?_⟩
  · simp [createPost, tick, hok, andThen]
  · simp [createPost, tick, hok, andThen]
  · intro h
    constructor
    · show (truncate500 content).length = 500
      unfold truncate500
      rw [if_pos h]
      show (content.data.take 500).length = 500
      rw [List.length_take]
      have : 500 ≤ content.data.length := h.le
      omega
    · unfold truncate500
      rw [if_pos h]
  · intro h
    unfold truncate500
    rw [if_neg (by omega)]

/-- Witness for C5 on a 600-character input. -/
theorem createPost_truncates_witness :
    envOk.storeFail stEmpty.callCtr = none ∧
    longContent.length = 600 ∧
    (createPost envOk "T" longContent none (.named "b") stEmpty).st.store.posts =
      stEmpty.store.posts ++ [⟨.gen stEmpty.idCtr, "T", truncate500 longContent, none, 0, .named "b"⟩] ∧
    (truncate500 longContent).length = 500 ∧
    (truncate500 longContent).data = longContent.data.take 500 :=
  ⟨rfl, by decide,
   (createPost_truncates envOk "T" longContent none (.named "b") stEmpty rfl).2.1,
   ((createPost_truncates envOk "T" longContent none (.named "b") stEmpty rfl).2.2.1 (by decide)).1,
   ((createPost_truncates envOk "T" longContent none (.named "b") stEmpty rfl).2.2.1 (by decide)).2⟩

/-- C6: when post generation returns none, or comment generation returns
none or an empty comment, the iteration appends the corresponding "could
not generate ... via ChatGPT." log entry and returns normally: no store
write, no exception. -/
theorem generation_unavailable_skips (env : Env) (bot : Bot) (imp : List DocId)
    (st : SimState)
    (hfail : ∀ n, env.storeFail n = none)
    (himp : imp ≠ [])
    (hposts : getUserPosts st.store (chosenTarget env imp st) ≠ [])
    (hgenP : env.genPost (postSeed (chosenPost env imp st)) bot.tone = none)
    (hgenC : env.genComment (commentSeed (chosenPost env imp st)) bot.tone = none ∨
             env.genComment (commentSeed (chosenPost env imp st)) bot.tone = some "") :
    ((runPostBot env bot imp st).err = none ∧
     (runPostBot env bot imp st).st.store = st.store ∧
     (runPostBot env bot imp st).st.logs =
       st.logs ++ ["Bot " ++ bot.id.render ++ " could not generate a post via ChatGPT."]) ∧
    ((runCommentBot env bot imp st).err = none ∧
     (runCommentBot env bot imp st).st.store = st.store ∧
     (runCommentBot env bot imp st).st.logs =
       st.logs ++ ["Bot " ++ bot.id.render ++ " could not generate a comment via ChatGPT."]) := by
  rw [chosenPost, chosenTarget] at hgenP hgenC
  rw [chosenTarget] at hposts
  constructor
  · rw [runPostBot, if_neg himp]
    simp only [tick, hfail, andThen, nextRand, getUserPosts] at *
    rw [if_neg hposts]
    simp only [pickFrom] at *
    rw [hgenP]
    exact ⟨rfl, rfl, rfl⟩
  · rw [runCommentBot, if_neg himp]
    simp only [tick, hfail, andThen, nextRand, getUserPosts] at *
    rw [if_neg hposts]
    simp only [pickFrom] at *
    rcases hgenC with hgenC | hgenC
    · rw [hgenC]
      exact ⟨rfl, rfl, rfl⟩
    · rw [hgenC]
      simp [skipLog, addLog]

/-- Witness for C6: generators disabled, one important user with one post. -/
theorem generation_unavailable_skips_witness :
    (∀ n, envOk.storeFail n = none) ∧ ([DocId.named "u"] : List DocId) ≠ [] ∧
    getUserPosts stW6.store (chosenTarget envOk [DocId.named "u"] stW6) ≠ [] ∧
    envOk.genPost (postSeed (chosenPost envOk [DocId.named "u"] stW6)) none = none ∧
    (((runPostBot envOk ⟨.named "b", some "post", some (.intv 1), none⟩ [DocId.named "u"] stW6).err = none ∧
      (runPostBot envOk ⟨.named "b", some "post", some (.intv 1), none⟩ [DocId.named "u"] stW6).st.store = stW6.store ∧
      (runPostBot envOk ⟨.named "b", some "post", some (.intv 1), none⟩ [DocId.named "u"] stW6).st.logs =
        stW6.logs ++ ["Bot b could not generate a post via ChatGPT."]) ∧
     ((runCommentBot envOk ⟨.named "b", some "post", some (.intv 1), none⟩ [DocId.named "u"] stW6).err = none ∧
      (runCommentBot envOk ⟨.named "b", some "post", some (.intv 1), none⟩ [DocId.named "u"] stW6).st.store = stW6.store ∧
      (runCommentBot envOk ⟨.named "b", some "post", some (.intv 1), none⟩ [DocId.named "u"] stW6).st.logs =
        stW6.logs ++ ["Bot b could not generate a comment via ChatGPT."])) :=
  ⟨fun _ => rfl, by decide, by decide, rfl,
   generation_unavailable_skips envOk ⟨.named "b", some "post", some (.intv 1), none⟩
     [DocId.named "u"] stW6 (fun _ => rfl) (by decide) (by decide) rfl (Or.inl rfl)⟩

/-- C8 (amended): when generated content is non-empty, a `None` from image
generation is silently skipped (no log entry), and an exception from the
upload step is caught and logged; in both cases the post is still created,
without an image reference. -/
theorem image_failure_best_effort (env : Env) (bot : Bot) (imp : List DocId)
    (st : SimState)
    (hfail : ∀ n, env.storeFail n = none)
    (himp : imp ≠ [])
    (hposts : getUserPosts st.store (chosenTarget env imp st) ≠ [])
    (gp : GenPost)
    (hgen : env.genPost (postSeed (chosenPost env imp st)) bot.tone = some gp)
    (hc : gp.content ≠ "") :
    (env.imageGen gp.content = none →
      (runPostBot env bot imp st).err = none ∧
      (runPostBot env bot imp st).st.store.posts =
        st.store.posts ++ [⟨.gen st.idCtr, gp.title, truncate500 gp.content, none, 0, bot.id⟩] ∧
      (runPostBot env bot imp st).st.logs =
        st.logs ++ ["Bot " ++ bot.id.render ++ " posted a new message titled \x27" ++ gp.title ++ "\x27."]) ∧
    (∀ url exc, env.imageGen gp.content = some url → env.upload url = .error exc →
      (runPostBot env bot imp st).err = none ∧
      (runPostBot env bot imp st).st.store.posts =
        st.store.posts ++ [⟨.gen st.idCtr, gp.title, truncate500 gp.content, none, 0, bot.id⟩] ∧
      (runPostBot env bot imp st).st.logs =
        st.logs ++ ["Bot " ++ bot.id.render ++ " failed to upload image: " ++ exc,
                    "Bot " ++ bot.id.render ++ " posted a new message titled \x27" ++ gp.title ++ "\x27."]) := by
  rw [chosenPost, chosenTarget] at hgen
  rw [chosenTarget] at hposts
  constructor
  · intro himg
    rw [runPostBot, if_neg himp]
    simp only [tick, hfail, andThen, nextRand, getUserPosts, pickFrom] at hposts hgen ⊢
    rw [if_neg hposts, hgen]
    simp only [hc, himg, if_neg, ite_false, createPost, tick, hfail, andThen, addLog]
    exact ⟨trivial, trivial, trivial⟩
  · intro url exc himg hup
    rw [runPostBot, if_neg himp]
    simp only [tick, hfail, andThen, nextRand, getUserPosts, pickFrom] at hposts hgen ⊢
    rw [if_neg hposts, hgen]
    simp only [hc, himg, hup, if_neg, ite_false, createPost, tick, hfail, andThen, addLog]
    refine ⟨trivial, trivial, ?_⟩
    simp

/-- C8 counterexample: in a run where image generation fails (returns
`None`), the iteration's complete log consists of the single success entry
and the post is created anyway — no log entry records the image-generation
failure, contradicting "a failure of image generation ... is logged". -/
theorem imageGen_failure_not_logged_cex :
    envC8.imageGen "C" = none ∧
    (runPostBot envC8 botC8 [DocId.named "u"] stW6).err = none ∧
    (runPostBot envC8 botC8 [DocId.named "u"] stW6).st.logs =
      ["Bot b posted a new message titled \x27T\x27."] ∧
    (runPostBot envC8 botC8 [DocId.named "u"] stW6).st.store.posts =
      stW6.store.posts ++ [⟨.gen 0, "T", "C", none, 0, .named "b"⟩] := by
  decide

/-- Witness for C8 (amended), upload branch: the upload raises "404", the
failure is logged, and the post is still created without an image. -/
theorem image_failure_best_effort_witness :
    (∀ n, envC8up.storeFail n = none) ∧
    ([DocId.named "u"] : List DocId) ≠ [] ∧
    getUserPosts stW6.store (chosenTarget envC8up [DocId.named "u"] stW6) ≠ [] ∧
    envC8up.genPost (postSeed (chosenPost envC8up [DocId.named "u"] stW6)) botC8.tone =
      some ⟨"T", "C"⟩ ∧
    (GenPost.mk "T" "C").content ≠ "" ∧
    ((runPostBot envC8up botC8 [DocId.named "u"] stW6).err = none ∧
     (runPostBot envC8up botC8 [DocId.named "u"] stW6).st.store.posts =
       stW6.store.posts ++
         [⟨.gen stW6.idCtr, (GenPost.mk "T" "C").title,
           truncate500 (GenPost.mk "T" "C").content, none, 0, botC8.id⟩] ∧
     (runPostBot envC8up botC8 [DocId.named "u"] stW6).st.logs =
       stW6.logs ++
         ["Bot " ++ botC8.id.render ++ " failed to upload image: " ++ "404",
          "Bot " ++ botC8.id.render ++ " posted a new message titled \x27" ++
            (GenPost.mk "T" "C").title ++ "\x27."]) :=
  ⟨fun _ => rfl, by decide, by decide, rfl, by decide,
   (image_failure_best_effort envC8up botC8 [DocId.named "u"] stW6 (fun _ => rfl)
     (by decide) (by decide) ⟨"T", "C"⟩ rfl (by decide)).2 "http:u" "404" rfl rfl⟩

/-- C1 counterexample: a transient store failure inside the first iteration
of a reaction bot (the likes update raises "boom") escapes `run_bots_once`
as an exception instead of becoming a log entry, and the remaining
iteration of that bot never runs: the cycle ends with the error set and an
empty log list. -/
theorem runCycle_error_escape_cex :
    (runBotsOnce envC1 stC1).err = some "boom" ∧
    (runBotsOnce envC1 stC1).st.logs = [] := by
  decide

/-- C1 (amended): an error raised inside a bot's iteration is not caught at
the dispatch boundary — it aborts the rest of the cycle and propagates out
of `run_bots_once`; it is caught only by the page-level try/except of
`run_analysis_page`, which surfaces it as an error display instead of a log
entry. -/
theorem analysisPage_catches_cycle_error (env : Env) (st : SimState) (e : String)
    (h : (runBotsOnce env st).err = some e) :
    runAnalysisCycle env st = .errorShown ("Error running bots: " ++ e) := by
  rw [runAnalysisCycle, h]

/-- Witness for C1 (amended) at the failing reaction-bot cycle. -/
theorem analysisPage_catches_cycle_error_witness :
    (runBotsOnce envC1 stC1).err = some "boom" ∧
    runAnalysisCycle envC1 stC1 = .errorShown ("Error running bots: " ++ "boom") :=
  ⟨by decide, analysisPage_catches_cycle_error envC1 stC1 "boom" (by decide)⟩

/-- Reading back the key just accumulated adds the contributed likes. -/
theorem dictGetD_addLikesEntry_self (d : List (DocId × Nat)) (k : DocId) (v : Nat) :
    dictGetD (addLikesEntry d k v) k 0 = dictGetD d k 0 + v := by
  induction d with
  | nil => simp [addLikesEntry, dictGetD]
  | cons e d ih =>
    by_cases he : e.1 = k
    · simp [addLikesEntry, he, dictGetD]
    · simp [addLikesEntry, he, dictGetD, ih]

/-- Accumulating one key leaves every other key's reading unchanged. -/
theorem dictGetD_addLikesEntry_ne (d : List (DocId × Nat)) (k k2 : DocId)
    (v w : Nat) (h : k2 ≠ k) :
    dictGetD (addLikesEntry d k v) k2 w = dictGetD d k2 w := by
  have h' : ¬ (k = k2) := fun hh => h hh.symm
  induction d with
  | nil => simp [addLikesEntry, dictGetD, h']
  | cons e d ih =>
    by_cases he : e.1 = k
    · have he2 : ¬ (e.1 = k2) := by rw [he]; exact h'
      simp [addLikesEntry, he, dictGetD, he2, h']
    · by_cases he2 : e.1 = k2
      · simp [addLikesEntry, he, dictGetD, he2, h, h']
      · simp [addLikesEntry, he, dictGetD, he2, ih]

/-- Folding one table of the snapshot adds, for every truthy author id, the
total likes of that author's rows in the table. -/
theorem dictGetD_snapFold {α : Type} (f : α → DocId) (g : α → Nat) (k : DocId)
    (hk : k ≠ DocId.named "") :
    ∀ (L : List α) (d : List (DocId × Nat)),
    dictGetD (L.foldl (fun d x => snapStep d (f x) (g x)) d) k 0 =
    dictGetD d k 0 + ((L.filter (fun x => f x = k)).map g).sum := by
  intro L
  induction L with
  | nil => intro d; simp
  | cons x L ih =>
    intro d
    simp only [List.foldl_cons]
    by_cases hfx : f x = DocId.named ""
    · rw [snapStep, if_pos hfx, ih d]
      have hnk : ¬ (f x = k) := by rw [hfx]; exact fun h => hk h.symm
      simp [List.filter_cons, hnk]
    · rw [snapStep, if_neg hfx, ih (addLikesEntry d (f x) (g x))]
      by_cases hxk : f x = k
      · rw [hxk, dictGetD_addLikesEntry_self]
        simp [List.filter_cons, hxk]
        omega
      · rw [dictGetD_addLikesEntry_ne _ _ _ _ _ (fun h => hxk h.symm)]
        simp [List.filter_cons, hxk]

/-- C9: the popularity snapshot is a pure read — the resulting state is the
input state after exactly the two listing calls, with no store change and
no log entry — and it reads back, for every author id, the sum of the likes
of all posts and comments authored by that id. -/
theorem popularity_snapshot_correct (env : Env) (st : SimState) (uid : DocId)
    (h1 : env.storeFail st.callCtr = none)
    (h2 : env.storeFail (st.callCtr + 1) = none)
    (huid : uid ≠ DocId.named "") :
    (computePopularitySnapshot env st).2 =
      ⟨{ st with callCtr := st.callCtr + 2 }, none⟩ ∧
    dictGetD (computePopularitySnapshot env st).1 uid 0 = sumLikes st.store uid := by
  constructor
  · simp [computePopularitySnapshot, tick, h1, h2]
  · simp only [computePopularitySnapshot, tick, h1, h2]
    rw [dictGetD_snapFold Comment.userid Comment.likes uid huid]
    rw [dictGetD_snapFold Post.userid Post.likes uid huid]
    simp [sumLikes, dictGetD]

/-- Witness for C9 on the Scenario-C database. -/
theorem popularity_snapshot_correct_witness :
    envOk.storeFail stW2.callCtr = none ∧
    envOk.storeFail (stW2.callCtr + 1) = none ∧
    DocId.named "u" ≠ DocId.named "" ∧
    ((computePopularitySnapshot envOk stW2).2 =
       ⟨{ stW2 with callCtr := stW2.callCtr + 2 }, none⟩ ∧
     dictGetD (computePopularitySnapshot envOk stW2).1 (.named "u") 0 =
       sumLikes stW2.store (.named "u")) :=
  ⟨rfl, rfl, by decide,
   popularity_snapshot_correct envOk stW2 (.named "u") rfl rfl (by decide)⟩

/-- A uniform choice from a non-empty list is a member of it. -/
theorem getD_mod_mem {α : Type} (l : List α) (d : α) (i : Nat) (h : l ≠ []) :
    l.getD (i % l.length) d ∈ l := by
  have hl : 0 < l.length := List.length_pos.mpr h
  have hm : i % l.length < l.length := Nat.mod_lt _ hl
  rw [List.getD_eq_getElem?_getD, List.getElem?_eq_getElem hm]
  simp

/-- A likes update leaves the list of comment ids unchanged. -/
theorem map_id_likeUpd (C : List Comment) (x : DocId) (v : Nat) :
    ((C.map fun d => if d.id = x then { d with likes := v } else d).map Comment.id) =
      C.map Comment.id := by
  rw [List.map_map]
  apply List.map_congr_left
  intro a _
  by_cases h : a.id = x <;> simp [h, Function.comp]

/-- Characterization of the reaction bot's comment loop over a duplicate-free
sublist `L` of the stored comments (no store failures): it succeeds and bumps
by one exactly the stored comments that are in `L` and whose author is a bot
or an important person, leaving everything else untouched. -/
theorem likeLoop_char (env : Env) (bid : DocId) (botIds imp : List DocId)
    (hfail : ∀ n, env.storeFail n = none) :
    ∀ (L : List Comment) (st : SimState),
    (st.store.comments.map Comment.id).Nodup →
    (∀ c ∈ L, c ∈ st.store.comments) →
    (L.map Comment.id).Nodup →
    (likeBotComments env bid botIds imp L st).err = none ∧
    (likeBotComments env bid botIds imp L st).st.store.posts = st.store.posts ∧
    (likeBotComments env bid botIds imp L st).st.store.users = st.store.users ∧
    (likeBotComments env bid botIds imp L st).st.store.bots = st.store.bots ∧
    (likeBotComments env bid botIds imp L st).st.store.comments =
      st.store.comments.map fun d =>
        if d.id ∈ L.map Comment.id ∧ (d.userid ∈ botIds ∨ d.userid ∈ imp)
        then { d with likes := d.likes + 1 } else d := by
  intro L
  induction L with
  | nil =>
    intro st _ _ _
    refine ⟨rfl, rfl, rfl, rfl, ?_⟩
    simp [likeBotComments]
  | cons c L ih =>
    intro st hno hsub hLno
    have hcC : c ∈ st.store.comments := hsub c (List.mem_cons_self _ _)
    have hcid : c.id ∉ L.map Comment.id := by
      simp only [List.map_cons, List.nodup_cons] at hLno
      exact hLno.1
    have hLno' : (L.map Comment.id).Nodup := by
      simp only [List.map_cons, List.nodup_cons] at hLno
      exact hLno.2
    have hsubL : ∀ e ∈ L, e ∈ st.store.comments :=
      fun e he => hsub e (List.mem_cons_of_mem _ he)
    by_cases hcond : c.userid ∈ botIds ∨ c.userid ∈ imp
    · simp only [likeBotComments]
      rw [if_pos hcond]
      simp only [addLikeToComment, tick, hfail, andThen, addLog]
      have hno' : (((st.store.comments.map fun d =>
          if d.id = c.id then { d with likes := c.likes + 1 } else d).map Comment.id)).Nodup := by
        rw [map_id_likeUpd]; exact hno
      have hsub' : ∀ e ∈ L, e ∈ st.store.comments.map fun d =>
          if d.id = c.id then { d with likes := c.likes + 1 } else d := by
        intro e he
        have heC := hsubL e he
        have hneq : ¬ (e.id = c.id) := by
          intro hh
          exact hcid (hh ▸ List.mem_map_of_mem Comment.id he)
        have hkeep : (if e.id = c.id then { e with likes := c.likes + 1 } else e) = e :=
          if_neg hneq
        exact hkeep ▸ List.mem_map_of_mem _ heC
      obtain ⟨e1, e2, e3, e4, e5⟩ := ih
        ⟨⟨st.store.users, st.store.bots, st.store.posts,
          st.store.comments.map fun d =>
            if d.id = c.id then { d with likes := c.likes + 1 } else d⟩,
         st.logs ++ ["Bot " ++ bid.render ++ " liked comment " ++ c.id.render ++ " by user " ++ c.userid.render ++ "."],
         st.randCtr, st.callCtr + 1, st.idCtr⟩ hno' hsub' hLno'
      refine ⟨e1, ?_, ?_, ?_, ?_⟩
      · rw [e2]
      · rw [e3]
      · rw [e4]
      · rw [e5, List.map_map]
        apply List.map_congr_left
        intro d hd
        by_cases hdc : d.id = c.id
        · have hdceq : d = c := List.inj_on_of_nodup_map hno hd hcC hdc
          subst hdceq
          simp [Function.comp, hcid, hcond]
        · simp only [Function.comp]
          rw [if_neg hdc]
          refine if_congr (and_congr_left' ?_) rfl rfl
          simp [List.mem_cons, hdc]
    · simp only [likeBotComments]
      rw [if_neg hcond]
      obtain ⟨e1, e2, e3, e4, e5⟩ := ih st hno hsubL hLno'
      refine ⟨e1, e2, e3, e4, ?_⟩
      rw [e5]
      apply List.map_congr_left
      intro d hd
      by_cases hdc : d.id = c.id
      · have hdceq : d = c := List.inj_on_of_nodup_map hno hd hcC hdc
        subst hdceq
        rw [if_neg (fun h => hcond h.2), if_neg (fun h => hcond h.2)]
      · refine if_congr (and_congr_left' ?_) rfl rfl
        simp [List.mem_cons, hdc]

/-- A successful reaction-bot iteration reduces to the comment loop run from
the intermediate state (post liked and logged). -/
theorem runReactionBot_eq (env : Env) (bot : Bot) (imp botIds : List DocId)
    (st : SimState)
    (hfail : ∀ n, env.storeFail n = none)
    (himp : imp ≠ [])
    (hposts : getUserPosts st.store (chosenTarget env imp st) ≠ []) :
    runReactionBot env bot imp botIds st =
      likeBotComments env bot.id botIds imp (reactionComments env imp st)
        (reactionMid env bot imp st) := by
  rw [runReactionBot, if_neg himp]
  rw [chosenTarget] at hposts
  simp only [pickFrom, nextRand, getUserPosts] at hposts
  simp only [tick, hfail, andThen, nextRand, pickFrom, getUserPosts, getCommentsForPost,
    addLikeToPost, addLog, reactionComments, reactionMid, chosenPost, chosenTarget]
  rw [if_neg hposts]

/-- C2: a reaction-bot iteration with a non-empty important-people set and
an available selected post succeeds and performs exactly these updates: the
selected post's likes grow by one, and each comment of that post grows by
one like precisely when its author is a known bot id or an important
person; every other post and comment is untouched. -/
theorem reactionBot_increments (env : Env) (bot : Bot) (imp botIds : List DocId)
    (st : SimState)
    (hfail : ∀ n, env.storeFail n = none)
    (himp : imp ≠ [])
    (hpno : (st.store.posts.map Post.id).Nodup)
    (hcno : (st.store.comments.map Comment.id).Nodup)
    (hposts : getUserPosts st.store (chosenTarget env imp st) ≠ []) :
    (runReactionBot env bot imp botIds st).err = none ∧
    (runReactionBot env bot imp botIds st).st.store.posts =
      st.store.posts.map (fun q =>
        if q.id = (chosenPost env imp st).id then { q with likes := q.likes + 1 } else q) ∧
    (runReactionBot env bot imp botIds st).st.store.comments =
      st.store.comments.map (fun c =>
        if c.postid = (chosenPost env imp st).id ∧ (c.userid ∈ botIds ∨ c.userid ∈ imp)
        then { c with likes := c.likes + 1 } else c) := by
  have hpmem : chosenPost env imp st ∈ getUserPosts st.store (chosenTarget env imp st) := by
    simp only [chosenPost, pickFrom, nextRand]
    exact getD_mod_mem _ _ _ hposts
  have hpPosts : chosenPost env imp st ∈ st.store.posts := (List.mem_filter.mp hpmem).1
  rw [runReactionBot_eq env bot imp botIds st hfail himp hposts]
  have hsubC : ∀ c ∈ reactionComments env imp st,
      c ∈ (reactionMid env bot imp st).store.comments := by
    intro c hc
    exact (List.mem_filter.mp hc).1
  have hnoC : ((reactionMid env bot imp st).store.comments.map Comment.id).Nodup := hcno
  have hLno : ((reactionComments env imp st).map Comment.id).Nodup :=
    hcno.sublist ((List.filter_sublist _).map _)
  obtain ⟨e1, e2, e3, e4, e5⟩ := likeLoop_char env bot.id botIds imp hfail
    (reactionComments env imp st) (reactionMid env bot imp st) hnoC hsubC hLno
  refine ⟨e1, ?_, ?_⟩
  · rw [e2]
    show (st.store.posts.map fun q =>
        if q.id = (chosenPost env imp st).id
        then { q with likes := (chosenPost env imp st).likes + 1 } else q) = _
    apply List.map_congr_left
    intro q hq
    by_cases h : q.id = (chosenPost env imp st).id
    · have hqp : q = chosenPost env imp st := List.inj_on_of_nodup_map hpno hq hpPosts h
      rw [if_pos h, if_pos h, ← hqp]
    · rw [if_neg h, if_neg h]
  · rw [e5]
    show (st.store.comments.map fun d =>
        if d.id ∈ (reactionComments env imp st).map Comment.id ∧
            (d.userid ∈ botIds ∨ d.userid ∈ imp)
        then { d with likes := d.likes + 1 } else d) = _
    apply List.map_congr_left
    intro d hd
    refine if_congr (and_congr_left' ?_) rfl rfl
    constructor
    · intro hmem
      obtain ⟨e, heL, heid⟩ := List.mem_map.mp hmem
      have heC : e ∈ st.store.comments := (List.mem_filter.mp heL).1
      have hed : e = d := List.inj_on_of_nodup_map hcno heC hd heid
      have hpd := (List.mem_filter.mp heL).2
      rw [hed] at hpd
      simpa using hpd
    · intro hpid
      apply List.mem_map_of_mem
      exact List.mem_filter.mpr ⟨hd, by simpa using hpid⟩

/-- Witness for C2 at Scenario C: post likes 5 become 6, the bot-authored
comment goes 2 to 3, the ordinary comment stays at 2. -/
theorem reactionBot_increments_witness :
    (∀ n, envOk.storeFail n = none) ∧
    ([DocId.named "u"] : List DocId) ≠ [] ∧
    (stW2.store.posts.map Post.id).Nodup ∧
    (stW2.store.comments.map Comment.id).Nodup ∧
    getUserPosts stW2.store (chosenTarget envOk [DocId.named "u"] stW2) ≠ [] ∧
    ((runReactionBot envOk botW2 [DocId.named "u"] [DocId.named "b"] stW2).err = none ∧
     (runReactionBot envOk botW2 [DocId.named "u"] [DocId.named "b"] stW2).st.store.posts =
       stW2.store.posts.map (fun q =>
         if q.id = (chosenPost envOk [DocId.named "u"] stW2).id
         then { q with likes := q.likes + 1 } else q) ∧
     (runReactionBot envOk botW2 [DocId.named "u"] [DocId.named "b"] stW2).st.store.comments =
       stW2.store.comments.map (fun c =>
         if c.postid = (chosenPost envOk [DocId.named "u"] stW2).id ∧
             (c.userid ∈ ([DocId.named "b"] : List DocId) ∨ c.userid ∈ ([DocId.named "u"] : List DocId))
         then { c with likes := c.likes + 1 } else c)) ∧
    (runReactionBot envOk botW2 [DocId.named "u"] [DocId.named "b"] stW2).st.store.posts.map Post.likes = [6] ∧
    (runReactionBot envOk botW2 [DocId.named "u"] [DocId.named "b"] stW2).st.store.comments.map Comment.likes = [3, 2] :=
  ⟨fun _ => rfl, by decide, by decide, by decide, by decide,
   reactionBot_increments envOk botW2 [DocId.named "u"] [DocId.named "b"] stW2
     (fun _ => rfl) (by decide) (by decide) (by decide) (by decide),
   by decide, by decide⟩

/-! ### Monotonicity infrastructure for the whole cycle -/

theorem postsKept_refl (s : List Post) : PostsKept s s :=
  fun p hp => ⟨p, hp, rfl, rfl, rfl, rfl, rfl, Nat.le_refl _⟩

theorem commentsKept_refl (s : List Comment) : CommentsKept s s :=
  fun c hc => ⟨c, hc, rfl, rfl, rfl, rfl, Nat.le_refl _⟩

theorem storeLE_refl (s : Store) : StoreLE s s :=
  ⟨rfl, rfl, postsKept_refl s.posts, commentsKept_refl s.comments⟩

theorem storeLE_trans {s1 s2 s3 : Store} (h1 : StoreLE s1 s2) (h2 : StoreLE s2 s3) :
    StoreLE s1 s3 := by
  obtain ⟨hu1, hb1, hp1, hc1⟩ := h1
  obtain ⟨hu2, hb2, hp2, hc2⟩ := h2
  refine ⟨hu2.trans hu1, hb2.trans hb1, ?_, ?_⟩
  · intro p hp
    obtain ⟨q, hq, e1, e2, e3, e4, e5, e6⟩ := hp1 p hp
    obtain ⟨r, hr, f1, f2, f3, f4, f5, f6⟩ := hp2 q hq
    exact ⟨r, hr, f1.trans e1, f2.trans e2, f3.trans e3, f4.trans e4, f5.trans e5,
      e6.trans f6⟩
  · intro c hc
    obtain ⟨q, hq, e1, e2, e3, e4, e5⟩ := hc1 c hc
    obtain ⟨r, hr, f1, f2, f3, f4, f5⟩ := hc2 q hq
    exact ⟨r, hr, f1.trans e1, f2.trans e2, f3.trans e3, f4.trans e4, e5.trans f5⟩

theorem storeExact_refl (s : Store) : StoreExact s s :=
  ⟨rfl, rfl, ⟨[], (List.append_nil _).symm⟩, ⟨[], (List.append_nil _).symm⟩⟩

theorem storeExact_trans {s1 s2 s3 : Store} (h1 : StoreExact s1 s2)
    (h2 : StoreExact s2 s3) : StoreExact s1 s3 := by
  obtain ⟨hu1, hb1, ⟨t1, ht1⟩, ⟨r1, hr1⟩⟩ := h1
  obtain ⟨hu2, hb2, ⟨t2, ht2⟩, ⟨r2, hr2⟩⟩ := h2
  refine ⟨hu2.trans hu1, hb2.trans hb1, ⟨t1 ++ t2, ?_⟩, ⟨r1 ++ r2, ?_⟩⟩
  · rw [ht2, ht1, List.append_assoc]
  · rw [hr2, hr1, List.append_assoc]

theorem storeExact_le {s1 s2 : Store} (h : StoreExact s1 s2) : StoreLE s1 s2 := by
  obtain ⟨hu, hb, ⟨t, ht⟩, ⟨r, hr⟩⟩ := h
  refine ⟨hu, hb, ?_, ?_⟩
  · intro p hp
    exact ⟨p, by rw [ht]; exact List.mem_append_left _ hp, rfl, rfl, rfl, rfl, rfl,
      Nat.le_refl _⟩
  · intro c hc
    exact ⟨c, by rw [hr]; exact List.mem_append_left _ hc, rfl, rfl, rfl, rfl,
      Nat.le_refl _⟩

/-- `Good` only depends on the store and the id counter. -/
theorem good_transport {st st' : SimState} (hs : st'.store = st.store)
    (hi : st'.idCtr = st.idCtr) (h : Good st) : Good st' := by
  unfold Good at *
  rw [hs, hi]
  exact h

theorem tick_store (env : Env) (st : SimState) :
    (tick env st).st.store = st.store ∧ (tick env st).st.idCtr = st.idCtr := by
  unfold tick
  cases env.storeFail st.callCtr <;> exact ⟨rfl, rfl⟩

theorem tick_good (env : Env) (st : SimState) (h : Good st) : Good (tick env st).st :=
  good_transport (tick_store env st).1 (tick_store env st).2 h

/-- Composition principle: sequencing preserves goodness and any reflexive,
transitive store relation established by each part. -/
theorem andThen_keep (P : Store → Store → Prop)
    (htrans : ∀ {a b c : Store}, P a b → P b c → P a c)
    {s0 : Store} {r : RunResult} {g : SimState → RunResult}
    (h1 : Good r.st) (h1' : P s0 r.st.store)
    (h2 : ∀ st, Good st → Good (g st).st ∧ P st.store (g st).st.store) :
    Good (andThen r g).st ∧ P s0 (andThen r g).st.store := by
  rcases hr : r.err with _ | m
  · have he : andThen r g = g r.st := by unfold andThen; rw [hr]
    rw [he]
    obtain ⟨hg, hg'⟩ := h2 r.st h1
    exact ⟨hg, htrans h1' hg'⟩
  · have he : andThen r g = r := by unfold andThen; rw [hr]
    rw [he]
    exact ⟨h1, h1'⟩

/-- A likes update leaves the list of post ids unchanged. -/
theorem map_id_likeUpdP (C : List Post) (x : DocId) (v : Nat) :
    ((C.map fun q => if q.id = x then { q with likes := v } else q).map Post.id) =
      C.map Post.id := by
  rw [List.map_map]
  apply List.map_congr_left
  intro a _
  by_cases h : a.id = x <;> simp [h, Function.comp]

/-- A read-then-increment likes write on a stored post only grows that
post's likes (duplicate-free ids). -/
theorem store_likeUpdP (s : List Post) (hno : (s.map Post.id).Nodup)
    (p : Post) (hp : p ∈ s) :
    PostsKept s (s.map fun q => if q.id = p.id then { q with likes := p.likes + 1 } else q) := by
  intro q hq
  by_cases hqi : q.id = p.id
  · have hqp : q = p := List.inj_on_of_nodup_map hno hq hp hqi
    refine ⟨{ q with likes := p.likes + 1 }, ?_, rfl, rfl, rfl, rfl, rfl, ?_⟩
    · exact List.mem_map.mpr ⟨q, hq, by simp [hqi]⟩
    · rw [hqp]
      exact Nat.le_succ _
  · refine ⟨q, ?_, rfl, rfl, rfl, rfl, rfl, Nat.le_refl _⟩
    exact List.mem_map.mpr ⟨q, hq, by simp [hqi]⟩

/-- The analogue for a stored comment. -/
theorem store_likeUpdC (s : List Comment) (hno : (s.map Comment.id).Nodup)
    (c : Comment) (hc : c ∈ s) :
    CommentsKept s (s.map fun d => if d.id = c.id then { d with likes := c.likes + 1 } else d) := by
  intro d hd
  by_cases hdi : d.id = c.id
  · have hdc : d = c := List.inj_on_of_nodup_map hno hd hc hdi
    refine ⟨{ d with likes := c.likes + 1 }, ?_, rfl, rfl, rfl, rfl, ?_⟩
    · exact List.mem_map.mpr ⟨d, hd, by simp [hdi]⟩
    · rw [hdc]
      exact Nat.le_succ _
  · refine ⟨d, ?_, rfl, rfl, rfl, rfl, Nat.le_refl _⟩
    exact List.mem_map.mpr ⟨d, hd, by simp [hdi]⟩

/-- `create_post` preserves goodness and only appends. -/
theorem createPost_keep (env : Env) (t c : String) (img : Option String) (uid : DocId)
    (st : SimState) (hst : Good st) :
    Good ((createPost env t c img uid st).st) ∧
    StoreExact st.store ((createPost env t c img uid st).st).store := by
  simp only [createPost, tick]
  rcases hf : env.storeFail st.callCtr with _ | m
  · simp only [hf, andThen]
    obtain ⟨hpn, hcn, hpb, hcb⟩ := hst
    constructor
    · refine ⟨?_, hcn, ?_, ?_⟩
      · show ((st.store.posts ++ [(⟨.gen st.idCtr, t, truncate500 c, img, 0, uid⟩ : Post)]).map Post.id).Nodup
        rw [List.map_append]
        rw [List.nodup_append]
        refine ⟨hpn, List.nodup_singleton _, ?_⟩
        intro a ha hb
        have hae : a = DocId.gen st.idCtr := by simpa using hb
        have := hpb a ha
        rw [hae] at this
        simp [idBound] at this
      · show ∀ i ∈ (st.store.posts ++ [(⟨.gen st.idCtr, t, truncate500 c, img, 0, uid⟩ : Post)]).map Post.id,
          idBound i ≤ st.idCtr + 1
        intro i hi
        rw [List.map_append, List.mem_append] at hi
        rcases hi with hi | hi
        · exact (hpb i hi).trans (Nat.le_succ _)
        · have : i = DocId.gen st.idCtr := by simpa using hi
          rw [this]
          simp [idBound]
      · exact fun i hi => (hcb i hi).trans (Nat.le_succ _)
    · exact ⟨rfl, rfl, ⟨[(⟨.gen st.idCtr, t, truncate500 c, img, 0, uid⟩ : Post)], rfl⟩,
        ⟨[], (List.append_nil _).symm⟩⟩
  · simp only [hf, andThen]
    exact ⟨⟨hst.1, hst.2.1, hst.2.2.1, hst.2.2.2⟩, storeExact_refl _⟩

/-- `create_comment` preserves goodness and only appends. -/
theorem createComment_keep (env : Env) (c : String) (pid uid : DocId)
    (st : SimState) (hst : Good st) :
    Good ((createComment env c pid uid st).st) ∧
    StoreExact st.store ((createComment env c pid uid st).st).store := by
  simp only [createComment, tick]
  rcases hf : env.storeFail st.callCtr with _ | m
  · simp only [hf, andThen]
    obtain ⟨hpn, hcn, hpb, hcb⟩ := hst
    constructor
    · refine ⟨hpn, ?_, fun i hi => (hpb i hi).trans (Nat.le_succ _), ?_⟩
      · show ((st.store.comments ++ [(⟨.gen st.idCtr, c, pid, uid, 0⟩ : Comment)]).map Comment.id).Nodup
        rw [List.map_append, List.nodup_append]
        refine ⟨hcn, List.nodup_singleton _, ?_⟩
        intro a ha hb
        have hae : a = DocId.gen st.idCtr := by simpa using hb
        have := hcb a ha
        rw [hae] at this
        simp [idBound] at this
      · show ∀ i ∈ (st.store.comments ++ [(⟨.gen st.idCtr, c, pid, uid, 0⟩ : Comment)]).map Comment.id,
          idBound i ≤ st.idCtr + 1
        intro i hi
        rw [List.map_append, List.mem_append] at hi
        rcases hi with hi | hi
        · exact (hcb i hi).trans (Nat.le_succ _)
        · have : i = DocId.gen st.idCtr := by simpa using hi
          rw [this]
          simp [idBound]
    · exact ⟨rfl, rfl, ⟨[], (List.append_nil _).symm⟩,
        ⟨[(⟨.gen st.idCtr, c, pid, uid, 0⟩ : Comment)], rfl⟩⟩
  · simp only [hf, andThen]
    exact ⟨⟨hst.1, hst.2.1, hst.2.2.1, hst.2.2.2⟩, storeExact_refl _⟩

/-- `add_like_to_post`, called with the just-read post, preserves goodness
and is monotone. -/
theorem addLikeToPost_keep (env : Env) (p : Post) (st : SimState) (hst : Good st)
    (hp : p ∈ st.store.posts) :
    Good ((addLikeToPost env p.id p.likes st).st) ∧
    StoreLE st.store ((addLikeToPost env p.id p.likes st).st).store := by
  simp only [addLikeToPost, tick]
  rcases hf : env.storeFail st.callCtr with _ | m
  · simp only [hf, andThen]
    obtain ⟨hpn, hcn, hpb, hcb⟩ := hst
    constructor
    · refine ⟨?_, hcn, ?_, hcb⟩
      · show (((st.store.posts.map fun q =>
            if q.id = p.id then { q with likes := p.likes + 1 } else q)).map Post.id).Nodup
        rw [map_id_likeUpdP]
        exact hpn
      · show ∀ i ∈ ((st.store.posts.map fun q =>
            if q.id = p.id then { q with likes := p.likes + 1 } else q)).map Post.id,
          idBound i ≤ st.idCtr
        rw [map_id_likeUpdP]
        exact hpb
    · exact ⟨rfl, rfl, store_likeUpdP st.store.posts hpn p hp, commentsKept_refl _⟩
  · simp only [hf, andThen]
    exact ⟨⟨hst.1, hst.2.1, hst.2.2.1, hst.2.2.2⟩, storeLE_refl _⟩

/-- `add_like_to_comment`, called with the just-read comment, preserves
goodness and is monotone. -/
theorem addLikeToComment_keep (env : Env) (c : Comment) (st : SimState) (hst : Good st)
    (hc : c ∈ st.store.comments) :
    Good ((addLikeToComment env c.id c.likes st).st) ∧
    StoreLE st.store ((addLikeToComment env c.id c.likes st).st).store := by
  simp only [addLikeToComment, tick]
  rcases hf : env.storeFail st.callCtr with _ | m
  · simp only [hf, andThen]
    obtain ⟨hpn, hcn, hpb, hcb⟩ := hst
    constructor
    · refine ⟨hpn, ?_, hpb, ?_⟩
      · show (((st.store.comments.map fun d =>
            if d.id = c.id then { d with likes := c.likes + 1 } else d)).map Comment.id).Nodup
        rw [map_id_likeUpd]
        exact hcn
      · show ∀ i ∈ ((st.store.comments.map fun d =>
            if d.id = c.id then { d with likes := c.likes + 1 } else d)).map Comment.id,
          idBound i ≤ st.idCtr
        rw [map_id_likeUpd]
        exact hcb
    · exact ⟨rfl, rfl, postsKept_refl _, store_likeUpdC st.store.comments hcn c hc⟩
  · simp only [hf, andThen]
    exact ⟨⟨hst.1, hst.2.1, hst.2.2.1, hst.2.2.2⟩, storeLE_refl _⟩

/-- The reaction bot's comment loop preserves goodness and is monotone, for
any failure pattern of the store. -/
theorem likeLoop_keep (env : Env) (bid : DocId) (botIds imp : List DocId) :
    ∀ (L : List Comment) (st : SimState), Good st →
    (∀ c ∈ L, c ∈ st.store.comments) →
    (L.map Comment.id).Nodup →
    Good ((likeBotComments env bid botIds imp L st).st) ∧
    StoreLE st.store ((likeBotComments env bid botIds imp L st).st).store := by
  intro L
  induction L with
  | nil => intro st hst _ _; exact ⟨hst, storeLE_refl _⟩
  | cons c L ih =>
    intro st hst hsub hLno
    have hcC : c ∈ st.store.comments := hsub c (List.mem_cons_self _ _)
    have hcid : c.id ∉ L.map Comment.id := by
      simp only [List.map_cons, List.nodup_cons] at hLno
      exact hLno.1
    have hLno' : (L.map Comment.id).Nodup := by
      simp only [List.map_cons, List.nodup_cons] at hLno
      exact hLno.2
    have hsubL : ∀ e ∈ L, e ∈ st.store.comments :=
      fun e he => hsub e (List.mem_cons_of_mem _ he)
    simp only [likeBotComments]
    by_cases hcond : c.userid ∈ botIds ∨ c.userid ∈ imp
    · rw [if_pos hcond]
      simp only [addLikeToComment, tick]
      rcases hf : env.storeFail st.callCtr with _ | m
      · simp only [hf, andThen]
        have hcn2 : ((st.store.comments.map fun d =>
            if d.id = c.id then { d with likes := c.likes + 1 } else d).map Comment.id).Nodup := by
          rw [map_id_likeUpd]
          exact hst.2.1
        have hcb2 : ∀ i ∈ (st.store.comments.map fun d =>
            if d.id = c.id then { d with likes := c.likes + 1 } else d).map Comment.id,
            idBound i ≤ st.idCtr := by
          rw [map_id_likeUpd]
          exact hst.2.2.2
        have hsub2 : ∀ e ∈ L, e ∈ st.store.comments.map fun d =>
            if d.id = c.id then { d with likes := c.likes + 1 } else d := by
          intro e he
          have heC := hsubL e he
          have hneq : ¬ (e.id = c.id) :=
            fun hh => hcid (hh ▸ List.mem_map_of_mem Comment.id he)
          exact List.mem_map.mpr ⟨e, heC, by simp [hneq]⟩
        have hstep : StoreLE st.store
            ⟨st.store.users, st.store.bots, st.store.posts,
             st.store.comments.map fun d =>
               if d.id = c.id then { d with likes := c.likes + 1 } else d⟩ :=
          ⟨rfl, rfl, postsKept_refl _, store_likeUpdC st.store.comments hst.2.1 c hcC⟩
        obtain ⟨g1, g2⟩ := ih
          ⟨⟨st.store.users, st.store.bots, st.store.posts,
            st.store.comments.map fun d =>
              if d.id = c.id then { d with likes := c.likes + 1 } else d⟩,
           st.logs ++ ["Bot " ++ bid.render ++ " liked comment " ++ c.id.render ++ " by user " ++ c.userid.render ++ "."],
           st.randCtr, st.callCtr + 1, st.idCtr⟩
          ⟨hst.1, hcn2, hst.2.2.1, hcb2⟩ hsub2 hLno'
        exact ⟨g1, storeLE_trans hstep g2⟩
      · simp only [hf, andThen]
        exact ⟨hst, storeLE_refl _⟩
    · rw [if_neg hcond]
      exact ih st hst hsubL hLno'

/-- The tail of a post-bot iteration (post creation plus success log)
preserves goodness and only appends, whatever the image step produced. -/
theorem postTail_keep (env : Env) (bot : Bot) (g : GenPost) (st2 : SimState) :
    ∀ (res : Option String × SimState), res.2.store = st2.store →
    res.2.idCtr = st2.idCtr → Good st2 →
    Good ((andThen (createPost env g.title g.content res.1 bot.id res.2)
      (fun st4 => ⟨addLog st4 ("Bot " ++ bot.id.render ++ " posted a new message titled \x27" ++ g.title ++ "\x27."), none⟩)).st) ∧
    StoreExact st2.store ((andThen (createPost env g.title g.content res.1 bot.id res.2)
      (fun st4 => ⟨addLog st4 ("Bot " ++ bot.id.render ++ " posted a new message titled \x27" ++ g.title ++ "\x27."), none⟩)).st).store := by
  intro res hstore hid hst2
  apply andThen_keep StoreExact storeExact_trans
  · exact (createPost_keep env g.title g.content res.1 bot.id res.2
      (good_transport hstore hid hst2)).1
  · have h2 := (createPost_keep env g.title g.content res.1 bot.id res.2
      (good_transport hstore hid hst2)).2
    rw [hstore] at h2
    exact h2
  · intro st4 hst4
    exact ⟨good_transport rfl rfl hst4, storeExact_refl _⟩

/-- A post-bot iteration preserves goodness and only appends entities. -/
theorem runPostBot_keep (env : Env) (bot : Bot) (imp : List DocId) (st : SimState)
    (hst : Good st) :
    Good ((runPostBot env bot imp st).st) ∧
    StoreExact st.store ((runPostBot env bot imp st).st).store := by
  simp only [runPostBot]
  by_cases himp : imp = []
  · rw [if_pos himp]
    exact ⟨good_transport rfl rfl hst, storeExact_refl _⟩
  · rw [if_neg himp]
    apply andThen_keep StoreExact storeExact_trans
      (tick_good env (nextRand st) (good_transport rfl rfl hst))
      (by rw [(tick_store env (nextRand st)).1]; exact storeExact_refl _)
    intro st2 hst2
    by_cases hpe : getUserPosts st2.store (pickFrom env st imp (DocId.named "")) = []
    · rw [if_pos hpe]
      exact ⟨good_transport rfl rfl hst2, storeExact_refl _⟩
    · rw [if_neg hpe]
      rcases hg : env.genPost (postSeed (pickFrom env st2
          (getUserPosts st2.store (pickFrom env st imp (DocId.named ""))) postDefault))
          bot.tone with _ | g
      · simp only [hg]
        exact ⟨good_transport rfl rfl hst2, storeExact_refl _⟩
      · simp only [hg]
        apply postTail_keep env bot g st2 _ ?_ ?_ hst2
        · split
          · rfl
          · split
            · rfl
            · split
              · rfl
              · rfl
        · split
          · rfl
          · split
            · rfl
            · split
              · rfl
              · rfl

/-- A comment-bot iteration preserves goodness and only appends entities. -/
theorem runCommentBot_keep (env : Env) (bot : Bot) (imp : List DocId) (st : SimState)
    (hst : Good st) :
    Good ((runCommentBot env bot imp st).st) ∧
    StoreExact st.store ((runCommentBot env bot imp st).st).store := by
  simp only [runCommentBot]
  by_cases himp : imp = []
  · rw [if_pos himp]
    exact ⟨good_transport rfl rfl hst, storeExact_refl _⟩
  · rw [if_neg himp]
    apply andThen_keep StoreExact storeExact_trans
      (tick_good env (nextRand st) (good_transport rfl rfl hst))
      (by rw [(tick_store env (nextRand st)).1]; exact storeExact_refl _)
    intro st2 hst2
    by_cases hpe : getUserPosts st2.store (pickFrom env st imp (DocId.named "")) = []
    · rw [if_pos hpe]
      exact ⟨good_transport rfl rfl hst2, storeExact_refl _⟩
    · rw [if_neg hpe]
      rcases hg : env.genComment (commentSeed (pickFrom env st2
          (getUserPosts st2.store (pickFrom env st imp (DocId.named ""))) postDefault))
          bot.tone with _ | c
      · simp only [hg]
        exact ⟨good_transport rfl rfl hst2, storeExact_refl _⟩
      · simp only [hg]
        by_cases hce : c = ""
        · rw [if_pos hce]
          exact ⟨good_transport rfl rfl hst2, storeExact_refl _⟩
        · rw [if_neg hce]
          apply andThen_keep StoreExact storeExact_trans
          · exact (createComment_keep env c
              (pickFrom env st2 (getUserPosts st2.store (pickFrom env st imp (DocId.named ""))) postDefault).id
              bot.id (nextRand st2) (good_transport rfl rfl hst2)).1
          · exact (createComment_keep env c
              (pickFrom env st2 (getUserPosts st2.store (pickFrom env st imp (DocId.named ""))) postDefault).id
              bot.id (nextRand st2) (good_transport rfl rfl hst2)).2
          · intro st4 hst4
            exact ⟨good_transport rfl rfl hst4, storeExact_refl _⟩

/-- A reaction-bot iteration preserves goodness and is monotone. -/
theorem runReactionBot_keep (env : Env) (bot : Bot) (imp botIds : List DocId)
    (st : SimState) (hst : Good st) :
    Good ((runReactionBot env bot imp botIds st).st) ∧
    StoreLE st.store ((runReactionBot env bot imp botIds st).st).store := by
  simp only [runReactionBot]
  by_cases himp : imp = []
  · rw [if_pos himp]
    exact ⟨good_transport rfl rfl hst, storeLE_refl _⟩
  · rw [if_neg himp]
    apply andThen_keep StoreLE storeLE_trans
      (tick_good env (nextRand st) (good_transport rfl rfl hst))
      (by rw [(tick_store env (nextRand st)).1]; exact storeLE_refl _)
    intro st2 hst2
    by_cases hpe : getUserPosts st2.store (pickFrom env st imp (DocId.named "")) = []
    · rw [if_pos hpe]
      exact ⟨good_transport rfl rfl hst2, storeLE_refl _⟩
    · rw [if_neg hpe]
      have hpick : (getUserPosts st2.store (pickFrom env st imp (DocId.named ""))).getD
          (env.rand st2.randCtr % (getUserPosts st2.store (pickFrom env st imp (DocId.named ""))).length)
          postDefault ∈ getUserPosts st2.store (pickFrom env st imp (DocId.named "")) :=
        getD_mod_mem _ _ _ hpe
      have hpmem : (getUserPosts st2.store (pickFrom env st imp (DocId.named ""))).getD
          (env.rand st2.randCtr % (getUserPosts st2.store (pickFrom env st imp (DocId.named ""))).length)
          postDefault ∈ st2.store.posts := (List.mem_filter.mp hpick).1
      apply andThen_keep StoreLE storeLE_trans
      · exact (addLikeToPost_keep env _ (nextRand st2)
          (good_transport rfl rfl hst2) hpmem).1
      · exact (addLikeToPost_keep env _ (nextRand st2)
          (good_transport rfl rfl hst2) hpmem).2
      · intro st4 hst4
        apply andThen_keep StoreLE storeLE_trans
          (tick_good env (addLog st4 ("Bot " ++ bot.id.render ++ " liked post " ++
            (pickFrom env st2 (getUserPosts st2.store (pickFrom env st imp (DocId.named ""))) postDefault).id.render ++ "."))
            (good_transport rfl rfl hst4))
          (by rw [(tick_store env (addLog st4 ("Bot " ++ bot.id.render ++ " liked post " ++
              (pickFrom env st2 (getUserPosts st2.store (pickFrom env st imp (DocId.named ""))) postDefault).id.render ++ "."))).1]
              exact storeLE_refl _)
        intro st6 hst6
        apply likeLoop_keep env bot.id botIds imp _ st6 hst6
          (fun c hc => (List.mem_filter.mp hc).1)
          (hst6.2.1.sublist ((List.filter_sublist _).map _))

/-- Variant of `andThen_keep` that only needs the continuation at the state
actually reached. -/
theorem andThen_keepAt (P : Store → Store → Prop)
    (htrans : ∀ {a b c : Store}, P a b → P b c → P a c)
    {s0 : Store} {r : RunResult} {g : SimState → RunResult}
    (h1 : Good r.st) (h1' : P s0 r.st.store)
    (h2 : Good r.st → Good (g r.st).st ∧ P r.st.store (g r.st).st.store) :
    Good (andThen r g).st ∧ P s0 (andThen r g).st.store := by
  rcases hr : r.err with _ | m
  · have he : andThen r g = g r.st := by unfold andThen; rw [hr]
    rw [he]
    obtain ⟨hg, hg'⟩ := h2 h1
    exact ⟨hg, htrans h1' hg'⟩
  · have he : andThen r g = r := by unfold andThen; rw [hr]
    rw [he]
    exact ⟨h1, h1'⟩

/-- All iterations of one bot preserve goodness and are monotone. -/
theorem runBotIters_keep (env : Env) (bot : Bot) (imp botIds : List DocId) :
    ∀ (n : Nat) (st : SimState), Good st →
    Good ((runBotIters env bot imp botIds n st).st) ∧
    StoreLE st.store ((runBotIters env bot imp botIds n st).st).store := by
  intro n
  induction n with
  | zero => intro st hst; exact ⟨hst, storeLE_refl _⟩
  | succ n ih =>
    intro st hst
    simp only [runBotIters]
    refine andThen_keep StoreLE storeLE_trans ?_ ?_ ?_
    · split
      · exact (runPostBot_keep env bot imp st hst).1
      · split
        · exact (runCommentBot_keep env bot imp st hst).1
        · split
          · exact (runReactionBot_keep env bot imp botIds st hst).1
          · exact good_transport rfl rfl hst
    · split
      · exact storeExact_le (runPostBot_keep env bot imp st hst).2
      · split
        · exact storeExact_le (runCommentBot_keep env bot imp st hst).2
        · split
          · exact (runReactionBot_keep env bot imp botIds st hst).2
          · exact storeLE_refl _
    · exact fun st2 hst2 => ih st2 hst2

/-- All iterations of a non-reaction bot only append entities. -/
theorem runBotIters_keepX (env : Env) (bot : Bot) (imp botIds : List DocId)
    (hbt : bot.bottype ≠ some "reaction") :
    ∀ (n : Nat) (st : SimState), Good st →
    Good ((runBotIters env bot imp botIds n st).st) ∧
    StoreExact st.store ((runBotIters env bot imp botIds n st).st).store := by
  intro n
  induction n with
  | zero => intro st hst; exact ⟨hst, storeExact_refl _⟩
  | succ n ih =>
    intro st hst
    simp only [runBotIters]
    refine andThen_keep StoreExact storeExact_trans ?_ ?_ ?_
    · by_cases h1 : bot.bottype = some "post"
      · rw [if_pos h1]
        exact (runPostBot_keep env bot imp st hst).1
      · rw [if_neg h1]
        by_cases h2 : bot.bottype = some "comment"
        · rw [if_pos h2]
          exact (runCommentBot_keep env bot imp st hst).1
        · rw [if_neg h2, if_neg hbt]
          exact good_transport rfl rfl hst
    · by_cases h1 : bot.bottype = some "post"
      · rw [if_pos h1]
        exact (runPostBot_keep env bot imp st hst).2
      · rw [if_neg h1]
        by_cases h2 : bot.bottype = some "comment"
        · rw [if_pos h2]
          exact (runCommentBot_keep env bot imp st hst).2
        · rw [if_neg h2, if_neg hbt]
          exact storeExact_refl _
    · exact fun st2 hst2 => ih st2 hst2

/-- The bot loop preserves goodness and is monotone. -/
theorem runBotsList_keep (env : Env) (imp botIds : List DocId) :
    ∀ (bots : List Bot) (st : SimState), Good st →
    Good ((runBotsList env imp botIds bots st).st) ∧
    StoreLE st.store ((runBotsList env imp botIds bots st).st).store := by
  intro bots
  induction bots with
  | nil => intro st hst; exact ⟨hst, storeLE_refl _⟩
  | cons b bs ih =>
    intro st hst
    simp only [runBotsList]
    refine andThen_keep StoreLE storeLE_trans ?_ ?_ ?_
    · exact (runBotIters_keep env b imp botIds (activityCount b.activitylevel) st hst).1
    · exact (runBotIters_keep env b imp botIds (activityCount b.activitylevel) st hst).2
    · exact fun st2 hst2 => ih st2 hst2

/-- The bot loop of a cycle without reaction bots only appends entities. -/
theorem runBotsList_keepX (env : Env) (imp botIds : List DocId) :
    ∀ (bots : List Bot), (∀ b ∈ bots, b.bottype ≠ some "reaction") →
    ∀ (st : SimState), Good st →
    Good ((runBotsList env imp botIds bots st).st) ∧
    StoreExact st.store ((runBotsList env imp botIds bots st).st).store := by
  intro bots
  induction bots with
  | nil => intro _ st hst; exact ⟨hst, storeExact_refl _⟩
  | cons b bs ih =>
    intro hnr st hst
    simp only [runBotsList]
    refine andThen_keep StoreExact storeExact_trans ?_ ?_ ?_
    · exact (runBotIters_keepX env b imp botIds (hnr b (List.mem_cons_self _ _))
        (activityCount b.activitylevel) st hst).1
    · exact (runBotIters_keepX env b imp botIds (hnr b (List.mem_cons_self _ _))
        (activityCount b.activitylevel) st hst).2
    · exact fun st2 hst2 => ih (fun b hb => hnr b (List.mem_cons_of_mem _ hb)) st2 hst2

/-- C3: across one whole cycle — whatever the bots, the generator results
and the store failures — users and bots are untouched, no post or comment
is ever deleted, their identity and non-likes fields are preserved, and
their likes never decrease; moreover, a cycle without reaction bots leaves
every existing post and comment exactly unchanged (new entities are only
appended), so likes writes happen only inside reaction iterations. -/
theorem cycle_monotone (env : Env) (st : SimState) (hgood : Good st) :
    StoreLE st.store ((runBotsOnce env st).st).store ∧
    (noReactionBots st.store.bots → StoreExact st.store ((runBotsOnce env st).st).store) := by
  constructor
  · simp only [runBotsOnce]
    refine (andThen_keepAt StoreLE storeLE_trans (tick_good env st hgood)
      (by rw [(tick_store env st).1]; exact storeLE_refl _) ?_).2
    intro h1g
    by_cases hb : (tick env st).st.store.bots = []
    · rw [if_pos hb]
      exact ⟨good_transport rfl rfl h1g, storeLE_refl _⟩
    · rw [if_neg hb]
      refine andThen_keepAt StoreLE storeLE_trans (tick_good env _ h1g)
        (by rw [(tick_store env (tick env st).st).1]; exact storeLE_refl _) ?_
      intro h2g
      exact runBotsList_keep env _ _ _ _ h2g
  · intro hnr
    simp only [runBotsOnce]
    refine (andThen_keepAt StoreExact storeExact_trans (tick_good env st hgood)
      (by rw [(tick_store env st).1]; exact storeExact_refl _) ?_).2
    intro h1g
    by_cases hb : (tick env st).st.store.bots = []
    · rw [if_pos hb]
      exact ⟨good_transport rfl rfl h1g, storeExact_refl _⟩
    · rw [if_neg hb]
      refine andThen_keepAt StoreExact storeExact_trans (tick_good env _ h1g)
        (by rw [(tick_store env (tick env st).st).1]; exact storeExact_refl _) ?_
      intro h2g
      refine runBotsList_keepX env _ _ _ ?_ _ h2g
      rw [(tick_store env st).1]
      exact hnr

/-- Witness for C3 on the Scenario-C database (a reaction bot present). -/
theorem cycle_monotone_witness :
    Good stW2 ∧
    (StoreLE stW2.store ((runBotsOnce envOk stW2).st).store ∧
     (noReactionBots stW2.store.bots → StoreExact stW2.store ((runBotsOnce envOk stW2).st).store)) :=
  ⟨by decide, cycle_monotone envOk stW2 (by decide)⟩

end BotSim

